import Mathlib

/-!
Verification development for the `typed_sqlx_client` repository.

The repository is a thin typed layer over the `sqlx` driver plus a derive
macro (`CrudOpsRef`) that generates dialect-specific CRUD SQL from an
annotated record declaration, and an ad hoc read-only query facility
(`SelectOnlyQuery`) with a SELECT-prefix guard and a heuristic row-to-JSON
projection.

This file shallowly embeds:
* the macro's input data (record declarations: struct name, `#[crud(...)]`
  attributes, fields with their syntactic Rust types) and the SQL-text /
  binding-order generation performed by `derive_crud_ops_ref`
  (`typed_sqlx_client_macros/src/lib.rs`);
* the read-only guard and the generic JSON projection of
  `execute_select_only` / `execute_select_as_only` (`src/tables.rs`),
  with the sqlx driver and `serde_json`'s string parser abstracted as
  function parameters (they are external crates);
* small driver-semantics models (a keyed row table) used to state the
  zero-match-outcome and batch-failure properties of the generated code.
-/

namespace TypedSqlx

/-! ### Syntactic Rust types, as inspected by the macro

`extract_option_inner_type_deep` in the source looks only at: whether the
type is a path, the identifier of the path's *first* segment, and the first
angle-bracketed type argument of that segment.  `path ident firstArg`
models exactly that data; `other` covers every other `syn::Type` shape. -/

inductive RustType where
  | path (ident : String) (firstArg : Option RustType)
  | other (descr : String)

/-- Embeds `extract_option_inner_type_deep` (macros/src/lib.rs:658-676):
repeatedly unwraps `Option<T>` (a path whose first segment is named
`Option` and carries a first generic type argument) and returns the
innermost non-`Option` type; any other type is returned unchanged. -/
def extract_option_inner_type_deep : RustType → RustType
  | RustType.path "Option" (some inner) => extract_option_inner_type_deep inner
  | t => t

/-! ### `#[crud(...)]` attribute items

A parsed item of a `#[crud(...)]` attribute list: a bare path such as
`primary_key` (`syn::Meta::Path`), or a name/value pair with a string
literal such as `rename = "col"` (`syn::Meta::NameValue`). -/

inductive CrudMeta where
  | path (ident : String)
  | nameValueStr (ident : String) (value : String)
deriving DecidableEq, BEq

/-- Rust `str::contains` on characters: does `pat` occur as a contiguous
substring of `s`? -/
def charsContain (pat : List Char) : List Char → Bool
  | [] => List.isPrefixOf pat []
  | c :: rest => List.isPrefixOf pat (c :: rest) || charsContain pat rest

def strContains (s pat : String) : Bool := charsContain pat.data s.data

/-- Rendering of one crud meta item back to its token text, as
`proc_macro2` prints it inside `Meta::List.tokens` (string literals keep
their quotes). -/
def metaTokens : CrudMeta → String
  | CrudMeta.path i => i
  | CrudMeta.nameValueStr i v => i ++ " = \"" ++ v ++ "\""

/-- Token text of a whole `#[crud(...)]` attribute's argument list. -/
def crudTokens (ms : List CrudMeta) : String :=
  String.intercalate ", " (ms.map metaTokens)

/-- Embeds `has_primary_key_attr` (macros/src/lib.rs:644-656): the source
checks `meta_list.tokens.to_string().contains("primary_key")` — a plain
substring test on the rendered token text, not a structural match on a
`primary_key` path item. -/
def has_primary_key_attr (ms : List CrudMeta) : Bool :=
  strContains (crudTokens ms) "primary_key"

/-- Embeds `get_crud_rename` (macros/src/lib.rs:599-619): the first
`rename = "..."` name/value item, if any. -/
def get_crud_rename (ms : List CrudMeta) : Option String :=
  ms.findSome? fun m =>
    match m with
    | CrudMeta.nameValueStr "rename" v => some v
    | _ => none

/-- Embeds `parse_table_name` (macros/src/lib.rs:621-641): the first
`table = "..."` item, defaulting to the struct's own name. -/
def parse_table_name (ms : List CrudMeta) (default : String) : String :=
  (ms.findSome? fun m =>
    match m with
    | CrudMeta.nameValueStr "table" v => some v
    | _ => none).getD default

/-- Embeds `parse_db_type` (macros/src/lib.rs:577-597): the first
`db = "..."` item, defaulting to `"mysql"`. -/
def parse_db_type (ms : List CrudMeta) : String :=
  (ms.findSome? fun m =>
    match m with
    | CrudMeta.nameValueStr "db" v => some v
    | _ => none).getD "mysql"

/-! ### Record declarations (the macro's input) -/

/-- One named field of the derive input: its identifier, its syntactic
type, and the parsed items of its `#[crud(...)]` attribute (empty list
when the field has no crud attribute). -/
structure Field where
  ident : String
  ty : RustType
  crud : List CrudMeta

/-- The derive input: struct name, struct-level `#[crud(...)]` items, and
the named fields in declared order. -/
structure RecordDecl where
  structName : String
  crud : List CrudMeta
  fields : List Field

/-- Embeds the primary-key search of `derive_crud_ops_ref`
(macros/src/lib.rs:206-236): the first field whose crud attribute token
text contains `primary_key` wins; if none does, the first declared field
is used; the resolved key type is the field's type with `Option` wrappers
stripped.  `none` models the `expect` panic on a zero-field struct. -/
def resolvePrimaryKey (fields : List Field) : Option (String × RustType) :=
  match fields.find? (fun f => has_primary_key_attr f.crud) with
  | some f => some (f.ident, extract_option_inner_type_deep f.ty)
  | none =>
    match fields with
    | [] => none
    | first :: _ => some (first.ident, extract_option_inner_type_deep first.ty)

/-! ### Generated CRUD implementation (SQL text and binding order)

The macro emits five async methods per record declaration.  Their
observable content — the SQL statement text handed to `sqlx::query` /
`sqlx::query_as` and the order in which values are bound — is captured in
`GeneratedImpl`.  The driver execution itself is external. -/

/-- One bound parameter: either an entity field (bound by its declared
identifier, via `query.bind(&entity.field)`) or the `id` argument. -/
inductive Binding where
  | field (ident : String)
  | idArg
deriving DecidableEq

structure GeneratedImpl where
  delete_by_id_sql : String
  get_by_id_sql : String
  insert_sql : String
  update_by_id_sql : String
  /-- The per-row statement formatted inside `insert_batch`'s loop; the
  source formats the same `fields`/`placeholders` strings each
  iteration. -/
  insert_batch_row_sql : String
  /-- Bindings of `insert` (and of each `insert_batch` row), in the order
  `query.bind` is called. -/
  insert_bind_order : List Binding
  /-- Bindings of `update_by_id`, in the order `query.bind` is called. -/
  update_bind_order : List Binding
deriving DecidableEq, Inhabited

/-- The effective column names, in declared field order: each field's
`rename` value, defaulting to the field identifier
(macros/src/lib.rs:240-243). -/
def field_names (fields : List Field) : List String :=
  fields.map fun f => (get_crud_rename f.crud).getD f.ident

/-- The non-primary-key fields: the source filters by comparing each
field's *identifier* against the resolved primary-key field name
(macros/src/lib.rs:245-254). -/
def non_pk_fields (fields : List Field) (primary_key_field : String) : List Field :=
  fields.filter fun f => f.ident ≠ primary_key_field

/-- Embeds the code generation of `derive_crud_ops_ref`
(macros/src/lib.rs:256-572) once the primary key is resolved.  The
`"postgres"` branch numbers placeholders `$1..$n`; the `"sqlite"` branch
and the default (`mysql`) branch of the source build syntactically
identical SQL text with `?` placeholders (they differ only in the sqlx
driver types, which have no counterpart in this embedding), so both are
modelled by the second branch. -/
def generate (decl : RecordDecl) (pk : String × RustType) : GeneratedImpl :=
  let table_name := parse_table_name decl.crud decl.structName
  let primary_key_field := pk.1
  let fnames := field_names decl.fields
  let field_idents := decl.fields.map Field.ident
  let non_pk := non_pk_fields decl.fields primary_key_field
  let non_pk_idents := non_pk.map Field.ident
  let non_pk_names := field_names non_pk
  let db_type := parse_db_type decl.crud
  if db_type = "postgres" then
    let pg_placeholders := (List.range fnames.length).map fun i => "$" ++ toString (i + 1)
    let pg_set_exprs := non_pk_names.enum.map fun p => p.2 ++ " = $" ++ toString (p.1 + 1)
    let pg_set_sql := String.intercalate ", " pg_set_exprs
    let update_pk_index := non_pk_names.length + 1
    let ins := "INSERT INTO " ++ table_name ++ " (" ++ String.intercalate ", " fnames
      ++ ") VALUES (" ++ String.intercalate ", " pg_placeholders ++ ")"
    { delete_by_id_sql := "DELETE FROM " ++ table_name ++ " WHERE " ++ primary_key_field ++ " = $1"
      get_by_id_sql := "SELECT * FROM " ++ table_name ++ " WHERE " ++ primary_key_field ++ " = $1"
      insert_sql := ins
      update_by_id_sql := "UPDATE " ++ table_name ++ " SET " ++ pg_set_sql
        ++ " WHERE " ++ primary_key_field ++ " = $" ++ toString update_pk_index
      insert_batch_row_sql := ins
      insert_bind_order := field_idents.map Binding.field
      update_bind_order := non_pk_idents.map Binding.field ++ [Binding.idArg] }
  else
    let placeholders := (List.range fnames.length).map fun _ => "?"
    let set_exprs := non_pk_names.map fun name => name ++ " = ?"
    let set_sql := String.intercalate ", " set_exprs
    let ins := "INSERT INTO " ++ table_name ++ " (" ++ String.intercalate ", " fnames
      ++ ") VALUES (" ++ String.intercalate ", " placeholders ++ ")"
    { delete_by_id_sql := "DELETE FROM " ++ table_name ++ " WHERE " ++ primary_key_field ++ " = ?"
      get_by_id_sql := "SELECT * FROM " ++ table_name ++ " WHERE " ++ primary_key_field ++ " = ?"
      insert_sql := ins
      update_by_id_sql := "UPDATE " ++ table_name ++ " SET " ++ set_sql
        ++ " WHERE " ++ primary_key_field ++ " = ?"
      insert_batch_row_sql := ins
      insert_bind_order := field_idents.map Binding.field
      update_bind_order := non_pk_idents.map Binding.field ++ [Binding.idArg] }

/-- Embeds `derive_crud_ops_ref` (macros/src/lib.rs:188-575): resolve the
primary key (panicking — `none` — on a zero-field struct), then generate
the dialect-specific implementation. -/
def derive_crud_ops_ref (decl : RecordDecl) : Option GeneratedImpl :=
  (resolvePrimaryKey decl.fields).map (generate decl)

/-! ### The read-only guard of `SelectOnlyQuery` (src/tables.rs:450-456, 498-503)

`query.trim().to_lowercase().starts_with("select")`.  Rust's `trim`,
`to_lowercase` and `starts_with` are modelled character-wise (the inputs
of interest are ASCII; `Char.toLower` lower-cases ASCII letters). -/

def isRustWhitespace (c : Char) : Bool :=
  c = ' ' || c = '\t' || c = '\n' || c = '\r'

/-- `str::trim`: strip leading and trailing whitespace. -/
def trimChars (s : List Char) : List Char :=
  ((s.dropWhile isRustWhitespace).reverse.dropWhile isRustWhitespace).reverse

/-- `str::to_lowercase` on the character list. -/
def toLowerChars (s : List Char) : List Char := s.map Char.toLower

/-- The trimmed, lower-cased copy of the query the guard inspects
(`let trimmed_query = query.trim().to_lowercase()`). -/
def trimmedLowerQuery (q : String) : String :=
  String.mk (toLowerChars (trimChars q.data))

/-- The guard condition: the trimmed, lower-cased query starts with
`select`. -/
def selectOnlyGuard (q : String) : Bool :=
  List.isPrefixOf "select".data (toLowerChars (trimChars q.data))

/-! ### The generic JSON projection of `execute_select_only`
(src/tables.rs:458-491) -/

/-- An opaque IEEE double, identified by its bit pattern; its numeric
behaviour is never consulted by the projection. -/
structure F64 where
  bits : Nat
deriving DecidableEq

/-- `serde_json::Value`. -/
inductive Json where
  | null
  | bool (b : Bool)
  | int (n : Int)
  | float (v : F64)
  | str (s : String)
  | arr (elems : List Json)
  | obj (fields : List (String × Json))

/-- One result cell as seen through sqlx's `Row::try_get`: for each probed
Rust type, the decoded value when that `try_get` succeeds, `none` when it
errors.  The sqlx decoding itself is external driver behaviour. -/
structure Cell where
  asI64 : Option Int := none
  asF64 : Option F64 := none
  asBool : Option Bool := none
  asString : Option String := none
  asBytes : Option (List Nat) := none
  asI32 : Option Int := none

/-- A result row: its columns in order, each with its cell. -/
def ResultRow := List (String × Cell)

/-- `row.try_get::<_, _>(column)` column lookup: the cell under the given
column name, `none` (a `try_get` error for every probed type) when the
row has no such column. -/
def tryGetCell (row : ResultRow) (col : String) : Option Cell :=
  (List.find? (fun e => e.fst = col) row).map Prod.snd

/-- Embeds the per-cell coercion cascade of `execute_select_only`
(src/tables.rs:472-486): try `i64`, then `f64`, then `bool`, then
`String` (parsing the text as embedded JSON via `serde_json::from_str`,
falling back to the raw text), then `Vec<u8>` (serialized as an array of
byte values), then `i32`, and finally `null` when every probe failed.
`parse` abstracts `serde_json::from_str::<Value>`. -/
def cellToJson (parse : String → Option Json) (c : Cell) : Json :=
  match c.asI64 with
  | some v => Json.int v
  | none =>
    match c.asF64 with
    | some v => Json.float v
    | none =>
      match c.asBool with
      | some v => Json.bool v
      | none =>
        match c.asString with
        | some s => (parse s).getD (Json.str s)
        | none =>
          match c.asBytes with
          | some v => Json.arr (v.map fun b => Json.int (Int.ofNat b))
          | none =>
            match c.asI32 with
            | some v => Json.int v
            | none => Json.null

/-- The coercion order as the specification describes it (spec §4.3 /
§9): integer, float, boolean, text-with-nested-parse, binary blob, then
null — *without* the trailing `i32` attempt the source performs.  Kept
solely to compare the spec's wording against `cellToJson`. -/
def cellToJsonSpecOrder (parse : String → Option Json) (c : Cell) : Json :=
  match c.asI64 with
  | some v => Json.int v
  | none =>
    match c.asF64 with
    | some v => Json.float v
    | none =>
      match c.asBool with
      | some v => Json.bool v
      | none =>
        match c.asString with
        | some s => (parse s).getD (Json.str s)
        | none =>
          match c.asBytes with
          | some v => Json.arr (v.map fun b => Json.int (Int.ofNat b))
          | none => Json.null

/-- One cell of the output row: look the column up, coerce; a missing
column fails every `try_get` and therefore lands on `null`. -/
def columnToJson (parse : String → Option Json) (row : ResultRow) (col : String) : Json :=
  match tryGetCell row col with
  | some c => cellToJson parse c
  | none => Json.null

/-- Embeds the row loop of `execute_select_only` (src/tables.rs:459-490):
column names are discovered from the first returned row (an empty result
set yields an empty column list), and every row is projected to a JSON
object over those columns. -/
def projectRows (parse : String → Option Json) (rows : List ResultRow) : List Json :=
  let columns :=
    match rows.head? with
    | some row => row.map Prod.fst
    | none => []
  rows.map fun row => Json.obj (columns.map fun col => (col, columnToJson parse row col))

/-! ### The two query entry points, with the driver abstracted -/

/-- `sqlx::Error`, restricted to what the embedding distinguishes: the
locally raised `InvalidArgument` guard error versus anything produced by
the driver. -/
inductive SqlxError (ε : Type) where
  | invalidArgument (msg : String)
  | driver (e : ε)
deriving DecidableEq

/-- Result of a query entry point together with the list of query strings
actually handed to the driver (`sqlx::query(query)` /
`sqlx::query_as(query)`), in submission order. -/
structure SelectOutcome (ε α : Type) where
  result : Except (SqlxError ε) α
  submitted : List String

/-- Embeds `execute_select_only` (src/tables.rs:450-492).  `fetch_all`
abstracts the driver's `sqlx::query(query).fetch_all(pool)`.  The source
first checks `!trimmed_query.starts_with("select")` and returns the guard
error before any driver call; on an accepted query the *original* string
is submitted and the rows are projected to JSON. -/
def execute_select_only (parse : String → Option Json)
    (fetch_all : String → Except ε (List ResultRow)) (query : String) :
    SelectOutcome ε (List Json) :=
  if selectOnlyGuard query then
    match fetch_all query with
    | Except.error e => { result := Except.error (SqlxError.driver e), submitted := [query] }
    | Except.ok rows => { result := Except.ok (projectRows parse rows), submitted := [query] }
  else
    { result := Except.error (SqlxError.invalidArgument "Only SELECT queries are allowed")
      submitted := [] }

/-- Embeds `execute_select_as_only` (src/tables.rs:494-507).
`fetch_all_as` abstracts `sqlx::query_as(query).fetch_all(pool)` together
with the driver's `FromRow` decoding into `τ`. -/
def execute_select_as_only (fetch_all_as : String → Except ε (List τ)) (query : String) :
    SelectOutcome ε (List τ) :=
  if selectOnlyGuard query then
    match fetch_all_as query with
    | Except.error e => { result := Except.error (SqlxError.driver e), submitted := [query] }
    | Except.ok vs => { result := Except.ok vs, submitted := [query] }
  else
    { result := Except.error (SqlxError.invalidArgument "Only SELECT queries are allowed")
      submitted := [] }

/-! ### Runtime behaviour of the generated `insert_batch`
(macros/src/lib.rs:346-365)

The generated loop formats the same single-row INSERT each iteration,
binds one entity, and awaits `query.execute(pool)` with `?` before moving
on; there is no transaction around the loop, so a statement that has
succeeded stays committed.  `exec` abstracts the driver: from a database
state and one entity it returns the post-insert state or an error (a
failed single statement is atomic and leaves the state unchanged). -/

def insert_batch_run (sql : String) (exec : σ → String → α → Except ε σ) (s : σ) :
    List α → σ × Except ε Unit × List (String × α)
  | [] => (s, Except.ok (), [])
  | e :: rest =>
    match exec s sql e with
    | Except.error err => (s, Except.error err, [(sql, e)])
    | Except.ok s' =>
      let out := insert_batch_run sql exec s' rest
      (out.1, out.2.1, (sql, e) :: out.2.2)

/-- The database state reached by successfully inserting every listed
entity in order; `none` when some insert fails along the way. -/
def runAll (sql : String) (exec : σ → String → α → Except ε σ) (s : σ) :
    List α → Option σ
  | [] => some s
  | e :: rest =>
    match exec s sql e with
    | Except.error _ => none
    | Except.ok s' => runAll sql exec s' rest

/-! ### Zero-match outcomes of the generated by-id operations
(macros/src/lib.rs:289-306, 327-344)

A minimal model of the external database: a table of keyed rows, with the
driver behaviours the generated code relies on — `fetch_optional` yields
the first matching row or `None`, and `UPDATE`/`DELETE` report a
rows-affected count instead of erroring when nothing matches. -/

structure DbState (κ ρ : Type) where
  rows : List (κ × ρ)

/-- Driver `fetch_optional` of `SELECT * FROM t WHERE pk = ?` bound to
`id`: the first matching row, if any. -/
def dbFetchOptional [DecidableEq κ] (db : DbState κ ρ) (id : κ) : Option ρ :=
  ((db.rows.filter fun r => r.1 = id).map Prod.snd).head?

/-- Driver execution of `DELETE FROM t WHERE pk = ?` bound to `id`:
the new state and the rows-affected count. -/
def dbDelete [DecidableEq κ] (db : DbState κ ρ) (id : κ) : DbState κ ρ × Nat :=
  (⟨db.rows.filter fun r => r.1 ≠ id⟩, (db.rows.filter fun r => r.1 = id).length)

/-- Driver execution of the generated UPDATE bound to `(entity, id)`:
every matching row's payload is replaced; the rows-affected count is
returned. -/
def dbUpdate [DecidableEq κ] (db : DbState κ ρ) (id : κ) (payload : ρ) :
    DbState κ ρ × Nat :=
  (⟨db.rows.map fun r => if r.1 = id then (r.1, payload) else r⟩,
   (db.rows.filter fun r => r.1 = id).length)

/-- The generated `get_by_id` body after the driver call:
`fetch_optional(...).await?` propagates a driver error and otherwise
wraps the optional row in `Ok` — a zero-row result is `Ok(None)`, never
an error (macros/src/lib.rs:297-306). -/
def gen_get_by_id (ε ρ : Type) (fetch_optional : Except ε (Option ρ)) :
    Except ε (Option ρ) :=
  match fetch_optional with
  | Except.error e => Except.error e
  | Except.ok r => Except.ok r

/-- The generated `delete_by_id` body after the driver call:
`execute(...).await?` propagates a driver error, and the rows-affected
count of a successful execution is discarded — `Ok(())` regardless of how
many rows matched (macros/src/lib.rs:289-295). -/
def gen_delete_by_id (ε : Type) (exec : Except ε Nat) : Except ε Unit :=
  match exec with
  | Except.error e => Except.error e
  | Except.ok _rows_affected => Except.ok ()

/-- The generated `update_by_id` body after the driver call: same shape
as `delete_by_id` — the rows-affected count is discarded
(macros/src/lib.rs:327-344). -/
def gen_update_by_id (ε : Type) (exec : Except ε Nat) : Except ε Unit :=
  match exec with
  | Except.error e => Except.error e
  | Except.ok _rows_affected => Except.ok ()

/-! ### Concrete record declarations used as test inputs -/

/-- The spec's running example: `User { id: Option<i64> [primary_key],
name: String, email: String }` with `table = "users"`, `db = "postgres"`. -/
def userDecl : RecordDecl :=
  { structName := "User"
    crud := [CrudMeta.nameValueStr "table" "users", CrudMeta.nameValueStr "db" "postgres"]
    fields :=
      [ { ident := "id", ty := RustType.path "Option" (some (RustType.path "i64" none)),
          crud := [CrudMeta.path "primary_key"] }
      , { ident := "name", ty := RustType.path "String" none, crud := [] }
      , { ident := "email", ty := RustType.path "String" none, crud := [] } ] }

def userGen : GeneratedImpl := (derive_crud_ops_ref userDecl).getD default

/-- A declaration whose primary-key field carries a column rename:
`id: Option<i64>` marked `primary_key` and renamed to `user_id`. -/
def renamedPkDecl : RecordDecl :=
  { structName := "User"
    crud := [CrudMeta.nameValueStr "table" "users", CrudMeta.nameValueStr "db" "postgres"]
    fields :=
      [ { ident := "id", ty := RustType.path "Option" (some (RustType.path "i64" none)),
          crud := [CrudMeta.path "primary_key", CrudMeta.nameValueStr "rename" "user_id"] }
      , { ident := "name", ty := RustType.path "String" none, crud := [] } ] }

def renamedPkGen : GeneratedImpl := (derive_crud_ops_ref renamedPkDecl).getD default

/-- A declaration with no `primary_key` marker anywhere, but whose second
field's rename value happens to contain the substring `primary_key`. -/
def postDecl : RecordDecl :=
  { structName := "Post"
    crud := []
    fields :=
      [ { ident := "id", ty := RustType.path "i64" none, crud := [] }
      , { ident := "note", ty := RustType.path "String" none,
          crud := [CrudMeta.nameValueStr "rename" "primary_key_old"] } ] }

/-- A declaration whose renames sort lexically *against* the declared
field order (`customer ↦ zz_customer_id` declared before
`date ↦ aa_order_date`). -/
def orderDecl : RecordDecl :=
  { structName := "Order"
    crud := [CrudMeta.nameValueStr "table" "orders", CrudMeta.nameValueStr "db" "mysql"]
    fields :=
      [ { ident := "order_id", ty := RustType.path "i64" none, crud := [CrudMeta.path "primary_key"] }
      , { ident := "customer", ty := RustType.path "i64" none,
          crud := [CrudMeta.nameValueStr "rename" "zz_customer_id"] }
      , { ident := "date", ty := RustType.path "String" none,
          crud := [CrudMeta.nameValueStr "rename" "aa_order_date"] } ] }

def orderGen : GeneratedImpl := (derive_crud_ops_ref orderDecl).getD default

/-- A three-field record used for the dialect comparison. -/
def prodFields : List Field :=
  [ { ident := "id", ty := RustType.path "i64" none, crud := [] }
  , { ident := "name", ty := RustType.path "String" none, crud := [] }
  , { ident := "price", ty := RustType.path "f64" none, crud := [] } ]

/-- A record declaration with the given struct name, explicit table name,
dialect selector and fields. -/
def mkDecl (name tbl db : String) (fields : List Field) : RecordDecl :=
  { structName := name
    crud := [CrudMeta.nameValueStr "table" tbl, CrudMeta.nameValueStr "db" db]
    fields := fields }

/-! ### Test doubles for the abstracted external crates -/

/-- A `serde_json::from_str` double that never recognises embedded JSON. -/
def parse0 : String → Option Json := fun _ => none

/-- A driver double whose `fetch_all` always returns an empty result. -/
def fetch0 : String → Except Unit (List ResultRow) := fun _ => Except.ok []

/-- A typed-path driver double. -/
def fetchT0 : String → Except Unit (List Nat) := fun _ => Except.ok []

/-! ### Shared helper lemmas -/

theorem string_append_assoc (a b c : String) : a ++ b ++ c = a ++ (b ++ c) := by
  cases a with | mk la =>
  cases b with | mk lb =>
  cases c with | mk lc =>
  show String.mk (la ++ lb ++ lc) = String.mk (la ++ (lb ++ lc))
  rw [List.append_assoc]

theorem generate_insert_sql_postgres (decl : RecordDecl) (pk : String × RustType)
    (hdb : parse_db_type decl.crud = "postgres") :
    (generate decl pk).insert_sql =
      "INSERT INTO " ++ parse_table_name decl.crud decl.structName ++ " ("
        ++ String.intercalate ", " (field_names decl.fields) ++ ") VALUES ("
        ++ String.intercalate ", "
            ((List.range (field_names decl.fields).length).map fun i => "$" ++ toString (i + 1))
        ++ ")" := by
  simp [generate, hdb]

theorem generate_insert_sql_qmark (decl : RecordDecl) (pk : String × RustType)
    (hdb : parse_db_type decl.crud ≠ "postgres") :
    (generate decl pk).insert_sql =
      "INSERT INTO " ++ parse_table_name decl.crud decl.structName ++ " ("
        ++ String.intercalate ", " (field_names decl.fields) ++ ") VALUES ("
        ++ String.intercalate ", "
            ((List.range (field_names decl.fields).length).map fun _ => "?")
        ++ ")" := by
  simp [generate, hdb]

theorem generate_of_derive (decl : RecordDecl) (g : GeneratedImpl)
    (h : derive_crud_ops_ref decl = some g) :
    ∃ pk, resolvePrimaryKey decl.fields = some pk ∧ g = generate decl pk := by
  cases hr : resolvePrimaryKey decl.fields with
  | none => rw [derive_crud_ops_ref, hr] at h; exact absurd h (by simp)
  | some pk =>
    rw [derive_crud_ops_ref, hr] at h
    exact ⟨pk, rfl, (Option.some.inj h).symm⟩

theorem resolvePrimaryKey_of_ne_nil (fields : List Field) (hne : fields ≠ []) :
    ∃ pk, resolvePrimaryKey fields = some pk := by
  cases hfind : fields.find? (fun f => has_primary_key_attr f.crud) with
  | some f =>
    exact ⟨(f.ident, extract_option_inner_type_deep f.ty), by simp [resolvePrimaryKey, hfind]⟩
  | none =>
    cases fields with
    | nil => exact absurd rfl hne
    | cons a l =>
      exact ⟨(a.ident, extract_option_inner_type_deep a.ty), by simp [resolvePrimaryKey, hfind]⟩

theorem execute_select_only_rejected (parse : String → Option Json)
    (fetch : String → Except ε (List ResultRow)) (q : String)
    (h : selectOnlyGuard q = false) :
    execute_select_only parse fetch q =
      { result := Except.error (SqlxError.invalidArgument "Only SELECT queries are allowed")
        submitted := [] } := by
  simp [execute_select_only, h]

theorem execute_select_as_only_rejected (fetchT : String → Except ε (List τ)) (q : String)
    (h : selectOnlyGuard q = false) :
    execute_select_as_only fetchT q =
      { result := Except.error (SqlxError.invalidArgument "Only SELECT queries are allowed")
        submitted := [] } := by
  simp [execute_select_as_only, h]

theorem execute_select_only_submitted (parse : String → Option Json)
    (fetch : String → Except ε (List ResultRow)) (q : String)
    (h : selectOnlyGuard q = true) :
    (execute_select_only parse fetch q).submitted = [q] := by
  cases hf : fetch q <;> simp [execute_select_only, h, hf]

theorem execute_select_as_only_submitted (fetchT : String → Except ε (List τ)) (q : String)
    (h : selectOnlyGuard q = true) :
    (execute_select_as_only fetchT q).submitted = [q] := by
  cases hf : fetchT q <;> simp [execute_select_as_only, h, hf]

/-! ## Claim C1 -/

/-- C1: a query whose trimmed, lower-cased text does not begin with
`select` makes `execute_select_only` and `execute_select_as_only` return
the locally raised guard error ("Only SELECT queries are allowed") with
nothing submitted to the driver, while a query that does begin with
`select` (case-insensitively, tolerating surrounding whitespace) passes
the guard and is handed to the driver. -/
theorem c1_select_guard (parse : String → Option Json)
    (fetch : String → Except ε (List ResultRow)) (fetchT : String → Except ε (List τ))
    (qrej qacc : String)
    (hrej : selectOnlyGuard qrej = false) (hacc : selectOnlyGuard qacc = true) :
    (execute_select_only parse fetch qrej).result
        = Except.error (SqlxError.invalidArgument "Only SELECT queries are allowed")
    ∧ (execute_select_only parse fetch qrej).submitted = []
    ∧ (execute_select_as_only fetchT qrej).result
        = Except.error (SqlxError.invalidArgument "Only SELECT queries are allowed")
    ∧ (execute_select_as_only fetchT qrej).submitted = []
    ∧ (execute_select_only parse fetch qacc).submitted = [qacc]
    ∧ (execute_select_as_only fetchT qacc).submitted = [qacc] := by
  refine ⟨?_, ?_, ?_, ?_, ?_, ?_⟩
  · rw [execute_select_only_rejected parse fetch qrej hrej]
  · rw [execute_select_only_rejected parse fetch qrej hrej]
  · rw [execute_select_as_only_rejected fetchT qrej hrej]
  · rw [execute_select_as_only_rejected fetchT qrej hrej]
  · exact execute_select_only_submitted parse fetch qacc hacc
  · exact execute_select_as_only_submitted fetchT qacc hacc

/-- Witness for C1: `"DELETE FROM t"` is rejected before any driver call
and `"  SeLeCt 1"` is accepted and submitted. -/
theorem c1_select_guard_witness :
    selectOnlyGuard "DELETE FROM t" = false
    ∧ selectOnlyGuard "  SeLeCt 1" = true
    ∧ (execute_select_only parse0 fetch0 "DELETE FROM t").result
        = Except.error (SqlxError.invalidArgument "Only SELECT queries are allowed")
    ∧ (execute_select_only parse0 fetch0 "DELETE FROM t").submitted = []
    ∧ (execute_select_as_only fetchT0 "DELETE FROM t").result
        = Except.error (SqlxError.invalidArgument "Only SELECT queries are allowed")
    ∧ (execute_select_as_only fetchT0 "DELETE FROM t").submitted = []
    ∧ (execute_select_only parse0 fetch0 "  SeLeCt 1").submitted = ["  SeLeCt 1"]
    ∧ (execute_select_as_only fetchT0 "  SeLeCt 1").submitted = ["  SeLeCt 1"] := by
  have h := c1_select_guard parse0 fetch0 fetchT0 "DELETE FROM t" "  SeLeCt 1"
    (by decide) (by decide)
  exact ⟨by decide, by decide, h.1, h.2.1, h.2.2.1, h.2.2.2.1, h.2.2.2.2.1, h.2.2.2.2.2⟩

/-! ## Claim C10 -/

/-- C10: for every query accepted by the read-only guard, the text handed
to the driver is the caller's original string unchanged — the trimmed,
lower-cased copy exists only for the prefix check and is never executed —
and the result is determined by the driver's response to that original
string. -/
theorem c10_original_text_submitted (parse : String → Option Json)
    (fetch : String → Except ε (List ResultRow)) (fetchT : String → Except ε (List τ))
    (q : String) (h : selectOnlyGuard q = true) :
    (execute_select_only parse fetch q).submitted = [q]
    ∧ (execute_select_as_only fetchT q).submitted = [q]
    ∧ (execute_select_only parse fetch q).result =
        (match fetch q with
         | Except.error e => Except.error (SqlxError.driver e)
         | Except.ok rows => Except.ok (projectRows parse rows)) := by
  refine ⟨execute_select_only_submitted parse fetch q h,
          execute_select_as_only_submitted fetchT q h, ?_⟩
  cases hf : fetch q <;> simp [execute_select_only, h, hf]

/-- Witness for C10: `"  SeLeCt 1  "` differs from its trimmed,
lower-cased copy, yet exactly the original string is submitted. -/
theorem c10_original_text_submitted_witness :
    selectOnlyGuard "  SeLeCt 1  " = true
    ∧ trimmedLowerQuery "  SeLeCt 1  " = "select 1"
    ∧ trimmedLowerQuery "  SeLeCt 1  " ≠ "  SeLeCt 1  "
    ∧ (execute_select_only parse0 fetch0 "  SeLeCt 1  ").submitted = ["  SeLeCt 1  "]
    ∧ (execute_select_as_only fetchT0 "  SeLeCt 1  ").submitted = ["  SeLeCt 1  "] := by
  have h := c10_original_text_submitted parse0 fetch0 fetchT0 "  SeLeCt 1  " (by decide)
  exact ⟨by decide, by decide, by decide, h.1, h.2.1⟩

/-! ## Claim C2 -/

/-- The coercion attempts of the source's cascade, in source order, as an
explicit priority list: `i64`, `f64`, `bool`, `String` (with the nested
embedded-JSON parse and raw-text fallback), `Vec<u8>`, `i32`. -/
def coercionAttempts (parse : String → Option Json) (c : Cell) : List (Option Json) :=
  [ c.asI64.map Json.int
  , c.asF64.map Json.float
  , c.asBool.map Json.bool
  , c.asString.map fun s => (parse s).getD (Json.str s)
  , c.asBytes.map fun v => Json.arr (v.map fun b => Json.int (Int.ofNat b))
  , c.asI32.map Json.int ]

/-- The first successful attempt of an ordered list. -/
def firstSome : List (Option α) → Option α
  | [] => none
  | some a :: _ => some a
  | none :: rest => firstSome rest

/-- A cell every probe of which fails except `try_get::<i32>`. -/
def i32OnlyCell : Cell := { asI32 := some 7 }

/-- Counterexample to C2 as stated: the claimed priority order (integer,
float, boolean, text, binary blob, then null) disagrees with the code on
a cell that only decodes as `i32` — the code emits the integer `7` where
the claimed order emits `null`, because the source tries `i32` *after*
the binary blob and before giving up. -/
theorem c2_priority_counterexample :
    cellToJson parse0 i32OnlyCell = Json.int 7
    ∧ cellToJsonSpecOrder parse0 i32OnlyCell = Json.null
    ∧ cellToJson parse0 i32OnlyCell ≠ cellToJsonSpecOrder parse0 i32OnlyCell := by
  refine ⟨rfl, rfl, fun h => ?_⟩
  have h' : Json.int 7 = Json.null := h
  exact Json.noConfusion h'

/-- C2 (amended): every cell is coerced by trying, in this exact fixed
priority order, integer (`i64`), floating point, boolean, text (with the
embedded-JSON parse falling back to the raw text), binary blob, and then
a second integer attempt (`i32`); the first successful coercion wins, and
only if all of these fail is the cell an explicit null. -/
theorem c2_priority_order (parse : String → Option Json) (c : Cell) :
    cellToJson parse c = (firstSome (coercionAttempts parse c)).getD Json.null := by
  obtain ⟨i1, f1, b1, s1, y1, i3⟩ := c
  cases i1 <;> cases f1 <;> cases b1 <;> cases s1 <;> cases y1 <;> cases i3 <;> rfl

/-! ## Claim C3 -/

/-- C3, evaluated at the failing input: for a record whose primary-key
field `id` is renamed to column `user_id`, every generated WHERE clause
filters on the declared field identifier `id`, not on the renamed column
`user_id` — while the same derivation's INSERT column list does use
`user_id`.  The claim (and the macro's own documentation of `rename`)
says the WHERE clause should use the renamed column. -/
theorem c3_where_ignores_rename :
    derive_crud_ops_ref renamedPkDecl = some renamedPkGen
    ∧ renamedPkGen.get_by_id_sql = "SELECT * FROM users WHERE id = $1"
    ∧ renamedPkGen.delete_by_id_sql = "DELETE FROM users WHERE id = $1"
    ∧ renamedPkGen.update_by_id_sql = "UPDATE users SET name = $1 WHERE id = $2"
    ∧ renamedPkGen.insert_sql = "INSERT INTO users (user_id, name) VALUES ($1, $2)" :=
  ⟨rfl, rfl, rfl, rfl, rfl⟩

/-! ## Claim C4 -/

/-- C4, evaluated at the failing input: in `postDecl` no field is
explicitly marked as primary key (no `primary_key` path item appears in
any field's crud attribute), yet the resolved primary key is the *second*
field `note`, not the first field `id`, because `has_primary_key_attr`
tests for the substring `primary_key` in the rendered attribute tokens
and finds it inside the rename value `"primary_key_old"`; the generated
by-id statements then key on `note`.  The Option-unwrap half of the claim
does hold: on `userDecl` the key `id: Option<i64>` resolves to the inner
type `i64`. -/
theorem c4_first_field_default_violated :
    (postDecl.fields.all fun f => !(f.crud.contains (CrudMeta.path "primary_key"))) = true
    ∧ has_primary_key_attr [CrudMeta.nameValueStr "rename" "primary_key_old"] = true
    ∧ resolvePrimaryKey postDecl.fields = some ("note", RustType.path "String" none)
    ∧ (derive_crud_ops_ref postDecl).map GeneratedImpl.delete_by_id_sql
        = some "DELETE FROM Post WHERE note = ?"
    ∧ resolvePrimaryKey userDecl.fields = some ("id", RustType.path "i64" none) :=
  ⟨rfl, rfl, rfl, rfl, rfl⟩

/-! ## Claim C5 -/

/-- C5: for every record declaration under dialect `postgres`, the
generated `update_by_id` statement is
`UPDATE <table> SET <col1> = $1, ..., <colk> = $k WHERE <pk> = $(k+1)`
over the non-primary-key columns in declared order, with the entity's
non-key fields bound in declared order followed by the `id` argument on
the trailing placeholder. -/
theorem c5_update_postgres_shape (decl : RecordDecl) (g : GeneratedImpl)
    (hdb : parse_db_type decl.crud = "postgres")
    (h : derive_crud_ops_ref decl = some g) :
    ∃ pk, resolvePrimaryKey decl.fields = some pk
      ∧ g.update_by_id_sql =
          "UPDATE " ++ parse_table_name decl.crud decl.structName ++ " SET "
            ++ String.intercalate ", "
                ((field_names (non_pk_fields decl.fields pk.1)).enum.map
                  fun p => p.2 ++ " = $" ++ toString (p.1 + 1))
            ++ " WHERE " ++ pk.1 ++ " = $"
            ++ toString ((field_names (non_pk_fields decl.fields pk.1)).length + 1)
      ∧ g.update_bind_order =
          ((non_pk_fields decl.fields pk.1).map Field.ident).map Binding.field
            ++ [Binding.idArg] := by
  obtain ⟨pk, hpk, rfl⟩ := generate_of_derive decl g h
  exact ⟨pk, hpk, by simp [generate, hdb], by simp [generate, hdb]⟩

/-- Witness for C5: the spec's `User` example produces
`UPDATE users SET name = $1, email = $2 WHERE id = $3` bound to
`(name, email, id)`. -/
theorem c5_update_postgres_shape_witness :
    parse_db_type userDecl.crud = "postgres"
    ∧ derive_crud_ops_ref userDecl = some userGen
    ∧ (∃ pk, resolvePrimaryKey userDecl.fields = some pk
        ∧ userGen.update_by_id_sql =
            "UPDATE " ++ parse_table_name userDecl.crud userDecl.structName ++ " SET "
              ++ String.intercalate ", "
                  ((field_names (non_pk_fields userDecl.fields pk.1)).enum.map
                    fun p => p.2 ++ " = $" ++ toString (p.1 + 1))
              ++ " WHERE " ++ pk.1 ++ " = $"
              ++ toString ((field_names (non_pk_fields userDecl.fields pk.1)).length + 1)
        ∧ userGen.update_bind_order =
            ((non_pk_fields userDecl.fields pk.1).map Field.ident).map Binding.field
              ++ [Binding.idArg])
    ∧ userGen.update_by_id_sql = "UPDATE users SET name = $1, email = $2 WHERE id = $3"
    ∧ userGen.update_bind_order
        = [Binding.field "name", Binding.field "email", Binding.idArg] :=
  ⟨rfl, rfl, c5_update_postgres_shape userDecl userGen rfl rfl, rfl, rfl⟩

/-! ## Claim C6 -/

/-- C6: changing only the dialect selector changes only the placeholder
syntax of the generated INSERT: under `postgres` the placeholders are
`$1..$n`, under `mysql` and `sqlite` they are `?` repeated, and the
`mysql` and `sqlite` statements are identical; the table name and the
column list (hence the whole statement prefix) are the same across all
three dialects. -/
theorem c6_dialect_changes_only_placeholders (name tbl : String) (fields : List Field)
    (hne : fields ≠ []) :
    ∃ gp gm gs,
      derive_crud_ops_ref (mkDecl name tbl "postgres" fields) = some gp
      ∧ derive_crud_ops_ref (mkDecl name tbl "mysql" fields) = some gm
      ∧ derive_crud_ops_ref (mkDecl name tbl "sqlite" fields) = some gs
      ∧ gm.insert_sql = gs.insert_sql
      ∧ gp.insert_sql =
          "INSERT INTO " ++ tbl ++ " (" ++ String.intercalate ", " (field_names fields)
            ++ ") VALUES ("
            ++ String.intercalate ", "
                ((List.range fields.length).map fun i => "$" ++ toString (i + 1)) ++ ")"
      ∧ gm.insert_sql =
          "INSERT INTO " ++ tbl ++ " (" ++ String.intercalate ", " (field_names fields)
            ++ ") VALUES ("
            ++ String.intercalate ", " ((List.range fields.length).map fun _ => "?") ++ ")" := by
  obtain ⟨pk, hpk⟩ := resolvePrimaryKey_of_ne_nil fields hne
  refine ⟨generate (mkDecl name tbl "postgres" fields) pk,
          generate (mkDecl name tbl "mysql" fields) pk,
          generate (mkDecl name tbl "sqlite" fields) pk,
          ?_, ?_, ?_, ?_, ?_, ?_⟩
  · simp [derive_crud_ops_ref, mkDecl, hpk]
  · simp [derive_crud_ops_ref, mkDecl, hpk]
  · simp [derive_crud_ops_ref, mkDecl, hpk]
  · rfl
  · rw [generate_insert_sql_postgres (mkDecl name tbl "postgres" fields) pk rfl]
    simp [mkDecl, parse_table_name, field_names, string_append_assoc]
  · rw [generate_insert_sql_qmark (mkDecl name tbl "mysql" fields) pk
        (by simp [mkDecl, parse_db_type])]
    simp [mkDecl, parse_table_name, field_names, string_append_assoc]

/-- Witness for C6: for the three-field `Product` record, `postgres`
yields `($1, $2, $3)` and `mysql`/`sqlite` yield `(?, ?, ?)`, with the
same table name and column list. -/
theorem c6_dialect_changes_only_placeholders_witness :
    prodFields ≠ []
    ∧ (∃ gp gm gs,
        derive_crud_ops_ref (mkDecl "Product" "products" "postgres" prodFields) = some gp
        ∧ derive_crud_ops_ref (mkDecl "Product" "products" "mysql" prodFields) = some gm
        ∧ derive_crud_ops_ref (mkDecl "Product" "products" "sqlite" prodFields) = some gs
        ∧ gm.insert_sql = gs.insert_sql
        ∧ gp.insert_sql =
            "INSERT INTO " ++ "products" ++ " ("
              ++ String.intercalate ", " (field_names prodFields)
              ++ ") VALUES ("
              ++ String.intercalate ", "
                  ((List.range prodFields.length).map fun i => "$" ++ toString (i + 1)) ++ ")"
        ∧ gm.insert_sql =
            "INSERT INTO " ++ "products" ++ " ("
              ++ String.intercalate ", " (field_names prodFields)
              ++ ") VALUES ("
              ++ String.intercalate ", "
                  ((List.range prodFields.length).map fun _ => "?") ++ ")")
    ∧ (derive_crud_ops_ref (mkDecl "Product" "products" "postgres" prodFields)).map
        GeneratedImpl.insert_sql
        = some "INSERT INTO products (id, name, price) VALUES ($1, $2, $3)"
    ∧ (derive_crud_ops_ref (mkDecl "Product" "products" "mysql" prodFields)).map
        GeneratedImpl.insert_sql
        = some "INSERT INTO products (id, name, price) VALUES (?, ?, ?)" := by
  have hne : prodFields ≠ [] := by simp [prodFields]
  exact ⟨hne, c6_dialect_changes_only_placeholders "Product" "products" prodFields hne,
         rfl, rfl⟩

/-! ## Claim C7 -/

theorem enumFrom_map_append_eq_zipWith (f : Nat → String) :
    ∀ (l : List String) (n : Nat),
      (List.enumFrom n l).map (fun p => p.2 ++ f p.1)
        = List.zipWith (fun a s => a ++ s) l ((List.range' n l.length).map f) := by
  intro l
  induction l with
  | nil => intro n; rfl
  | cons a t ih =>
    intro n
    simp only [List.enumFrom, List.map_cons, List.length_cons, List.range', List.zipWith]
    rw [ih (n + 1)]

theorem enum_map_append_eq_zipWith (f : Nat → String) (l : List String) :
    l.enum.map (fun p => p.2 ++ f p.1)
      = List.zipWith (fun a s => a ++ s) l ((List.range l.length).map f) := by
  rw [List.range_eq_range']
  exact enumFrom_map_append_eq_zipWith f l 0

theorem map_append_const_eq_zipWith (s : String) :
    ∀ l : List String,
      l.map (fun a => a ++ s)
        = List.zipWith (fun a t => a ++ t) l (List.replicate l.length s) := by
  intro l
  induction l with
  | nil => rfl
  | cons a t ih =>
    simp only [List.map_cons, List.length_cons, List.replicate, List.zipWith]
    rw [ih]

/-- C7: for every record declaration, the column lists of the generated
INSERT statement and of the generated UPDATE statement's SET clause are
each field's rename value (defaulting to the field's own name) in
declared field order — each SET item is that column name followed by a
per-position placeholder suffix — and the parameter bindings of both
statements follow declared field order (for UPDATE: the non-key fields
in declared order, then the id argument) — never the rename values'
lexical order. -/
theorem c7_rename_values_declared_order (decl : RecordDecl) (g : GeneratedImpl)
    (h : derive_crud_ops_ref decl = some g) :
    (∃ tail, g.insert_sql =
        "INSERT INTO " ++ parse_table_name decl.crud decl.structName ++ " ("
          ++ String.intercalate ", "
              (decl.fields.map fun f => (get_crud_rename f.crud).getD f.ident)
          ++ ") VALUES (" ++ tail)
    ∧ g.insert_bind_order = (decl.fields.map fun f => Binding.field f.ident)
    ∧ (∃ pk suffixes tail,
        resolvePrimaryKey decl.fields = some pk
        ∧ suffixes.length
            = ((non_pk_fields decl.fields pk.1).map
                fun f => (get_crud_rename f.crud).getD f.ident).length
        ∧ g.update_by_id_sql =
            "UPDATE " ++ parse_table_name decl.crud decl.structName ++ " SET "
              ++ String.intercalate ", "
                  (List.zipWith (fun cname suffix => cname ++ suffix)
                    ((non_pk_fields decl.fields pk.1).map
                      fun f => (get_crud_rename f.crud).getD f.ident)
                    suffixes)
              ++ " WHERE " ++ tail
        ∧ g.update_bind_order =
            ((non_pk_fields decl.fields pk.1).map fun f => Binding.field f.ident)
              ++ [Binding.idArg]) := by
  obtain ⟨pk, hpk, rfl⟩ := generate_of_derive decl g h
  refine ⟨?_, ?_, ?_⟩
  · by_cases hdb : parse_db_type decl.crud = "postgres"
    · refine ⟨String.intercalate ", "
        ((List.range (field_names decl.fields).length).map fun i => "$" ++ toString (i + 1))
        ++ ")", ?_⟩
      rw [generate_insert_sql_postgres decl pk hdb]
      simp [field_names, string_append_assoc]
    · refine ⟨String.intercalate ", "
        ((List.range (field_names decl.fields).length).map fun _ => "?") ++ ")", ?_⟩
      rw [generate_insert_sql_qmark decl pk hdb]
      simp [field_names, string_append_assoc]
  · by_cases hdb : parse_db_type decl.crud = "postgres" <;> simp [generate, hdb]
  · by_cases hdb : parse_db_type decl.crud = "postgres"
    · refine ⟨pk,
        (List.range (field_names (non_pk_fields decl.fields pk.1)).length).map
          (fun i => " = $" ++ toString (i + 1)),
        pk.1 ++ " = $" ++ toString ((field_names (non_pk_fields decl.fields pk.1)).length + 1),
        hpk, by simp [field_names], ?_, by simp [generate, hdb]⟩
      have hset := enum_map_append_eq_zipWith (fun i => " = $" ++ toString (i + 1))
        (field_names (non_pk_fields decl.fields pk.1))
      simp [generate, hdb, field_names, string_append_assoc] at hset ⊢
      rw [hset]
    · refine ⟨pk,
        List.replicate (field_names (non_pk_fields decl.fields pk.1)).length " = ?",
        pk.1 ++ " = ?",
        hpk, by simp [field_names], ?_, by simp [generate, hdb]⟩
      have hset := map_append_const_eq_zipWith " = ?"
        (field_names (non_pk_fields decl.fields pk.1))
      simp [generate, hdb, field_names, string_append_assoc] at hset ⊢
      rw [hset]

/-- Witness for C7: in `orderDecl` the renames (`zz_customer_id`,
`aa_order_date`) sort against the declared order, yet the generated
INSERT and UPDATE column lists and bindings follow the declared order. -/
theorem c7_rename_values_declared_order_witness :
    derive_crud_ops_ref orderDecl = some orderGen
    ∧ (∃ tail, orderGen.insert_sql =
        "INSERT INTO " ++ parse_table_name orderDecl.crud orderDecl.structName ++ " ("
          ++ String.intercalate ", "
              (orderDecl.fields.map fun f => (get_crud_rename f.crud).getD f.ident)
          ++ ") VALUES (" ++ tail)
    ∧ orderGen.insert_bind_order = (orderDecl.fields.map fun f => Binding.field f.ident)
    ∧ (∃ pk suffixes tail,
        resolvePrimaryKey orderDecl.fields = some pk
        ∧ suffixes.length
            = ((non_pk_fields orderDecl.fields pk.1).map
                fun f => (get_crud_rename f.crud).getD f.ident).length
        ∧ orderGen.update_by_id_sql =
            "UPDATE " ++ parse_table_name orderDecl.crud orderDecl.structName ++ " SET "
              ++ String.intercalate ", "
                  (List.zipWith (fun cname suffix => cname ++ suffix)
                    ((non_pk_fields orderDecl.fields pk.1).map
                      fun f => (get_crud_rename f.crud).getD f.ident)
                    suffixes)
              ++ " WHERE " ++ tail
        ∧ orderGen.update_bind_order =
            ((non_pk_fields orderDecl.fields pk.1).map fun f => Binding.field f.ident)
              ++ [Binding.idArg])
    ∧ orderGen.insert_sql
        = "INSERT INTO orders (order_id, zz_customer_id, aa_order_date) VALUES (?, ?, ?)"
    ∧ orderGen.update_by_id_sql
        = "UPDATE orders SET zz_customer_id = ?, aa_order_date = ? WHERE order_id = ?"
    ∧ orderGen.insert_bind_order
        = [Binding.field "order_id", Binding.field "customer", Binding.field "date"]
    ∧ orderGen.update_bind_order
        = [Binding.field "customer", Binding.field "date", Binding.idArg] := by
  have h := c7_rename_values_declared_order orderDecl orderGen rfl
  exact ⟨rfl, h.1, h.2.1, h.2.2, rfl, rfl, rfl, rfl⟩

/-! ## Claim C8 -/

theorem insert_batch_run_all_ok (sql : String) (exec : σ → String → α → Except ε σ) :
    ∀ (es : List α) (s s_end : σ), runAll sql exec s es = some s_end →
      insert_batch_run sql exec s es = (s_end, Except.ok (), es.map fun e => (sql, e)) := by
  intro es
  induction es with
  | nil => intro s s_end h; simp [runAll] at h; simp [insert_batch_run, h]
  | cons e rest ih =>
    intro s s_end h
    cases hx : exec s sql e with
    | error err =>
      simp only [runAll, hx] at h
      exact Option.noConfusion h
    | ok s' =>
      simp only [runAll, hx] at h
      simp only [insert_batch_run, hx, ih s' s_end h, List.map_cons]

theorem insert_batch_run_stops (sql : String) (exec : σ → String → α → Except ε σ) :
    ∀ (pre : List α) (s s_i : σ) (bad : α) (post : List α) (err : ε),
      runAll sql exec s pre = some s_i → exec s_i sql bad = Except.error err →
      insert_batch_run sql exec s (pre ++ bad :: post)
        = (s_i, Except.error err, (pre ++ [bad]).map fun e => (sql, e)) := by
  intro pre
  induction pre with
  | nil =>
    intro s s_i bad post err hall hbad
    simp [runAll] at hall
    subst hall
    simp [insert_batch_run, hbad]
  | cons e rest ih =>
    intro s s_i bad post err hall hbad
    cases hx : exec s sql e with
    | error e2 =>
      simp only [runAll, hx] at hall
      exact Option.noConfusion hall
    | ok s' =>
      simp only [runAll, hx] at hall
      rw [List.cons_append]
      simp only [insert_batch_run, hx, ih s' s_i bad post err hall hbad, List.map_append,
        List.map_cons]
      rfl

/-- C8: `insert_batch` executes one single-row INSERT per entity,
sequentially in slice order, each awaited before the next begins, with no
transaction around the loop: if every insert succeeds the statements
issued are exactly one per entity in order; and if the insert for some
entity fails after a successful prefix, the loop stops with that error,
the statements issued are exactly those for the prefix and the failing
entity, the database state keeps the prefix's inserts committed, and no
statement is issued for later entities. -/
theorem c8_insert_batch_sequential (sql : String) (exec : σ → String → α → Except ε σ)
    (s0 : σ) :
    (∀ (es : List α) (s_end : σ), runAll sql exec s0 es = some s_end →
        insert_batch_run sql exec s0 es = (s_end, Except.ok (), es.map fun e => (sql, e)))
    ∧ (∀ (pre : List α) (bad : α) (post : List α) (s_i : σ) (err : ε),
        runAll sql exec s0 pre = some s_i → exec s_i sql bad = Except.error err →
        insert_batch_run sql exec s0 (pre ++ bad :: post)
          = (s_i, Except.error err, (pre ++ [bad]).map fun e => (sql, e))) :=
  ⟨fun es s_end h => insert_batch_run_all_ok sql exec es s0 s_end h,
   fun pre bad post s_i err h1 h2 =>
     insert_batch_run_stops sql exec pre s0 s_i bad post err h1 h2⟩

/-- A driver double for the batch model: the state is the list of
committed values; inserting `99` fails. -/
def exec8 : List Nat → String → Nat → Except String (List Nat) :=
  fun s _sql e => if e = 99 then Except.error "boom" else Except.ok (s ++ [e])

/-- Witness for C8: on entities `[1, 2, 99, 4]` the batch commits `1` and
`2`, issues the same single-row statement for `1`, `2` and `99` only,
stops with the error of `99`, and issues nothing for `4`. -/
theorem c8_insert_batch_sequential_witness :
    runAll "INSERT INTO t (v) VALUES (?)" exec8 [] [1, 2] = some [1, 2]
    ∧ exec8 [1, 2] "INSERT INTO t (v) VALUES (?)" 99 = Except.error "boom"
    ∧ insert_batch_run "INSERT INTO t (v) VALUES (?)" exec8 [] ([1, 2] ++ 99 :: [4])
        = ([1, 2], Except.error "boom",
           ([1, 2] ++ [99]).map fun e => ("INSERT INTO t (v) VALUES (?)", e)) :=
  ⟨rfl, rfl,
   (c8_insert_batch_sequential "INSERT INTO t (v) VALUES (?)" exec8 []).2
     [1, 2] 99 [4] [1, 2] "boom" rfl rfl⟩

/-! ## Claim C9 -/

theorem map_noop (l : List α) (f : α → α) (h : ∀ x ∈ l, f x = x) : l.map f = l := by
  induction l with
  | nil => rfl
  | cons a l ih =>
    rw [List.map_cons, h a (by simp), ih fun x hx => h x (by simp [hx])]

/-- C9: zero-match outcomes are successes, not errors — when no row of
the table matches the key, the driver's `fetch_optional` yields no row
and the generated `get_by_id` returns `Ok(None)`; the generated
`delete_by_id` and `update_by_id` return `Ok(())` with zero rows affected
and the table unchanged. -/
theorem c9_zero_match_is_success (κ ρ : Type) [DecidableEq κ] (ε : Type)
    (db : DbState κ ρ) (id : κ) (payload : ρ)
    (h : ∀ r ∈ db.rows, r.1 ≠ id) :
    gen_get_by_id ε ρ (Except.ok (dbFetchOptional db id)) = Except.ok none
    ∧ dbFetchOptional db id = none
    ∧ gen_delete_by_id ε (Except.ok (dbDelete db id).2) = Except.ok ()
    ∧ dbDelete db id = (db, 0)
    ∧ gen_update_by_id ε (Except.ok (dbUpdate db id payload).2) = Except.ok ()
    ∧ dbUpdate db id payload = (db, 0) := by
  obtain ⟨rows⟩ := db
  have hmem : ∀ r ∈ rows, r.1 ≠ id := h
  have h0 : rows.filter (fun r => r.1 = id) = [] := by
    rw [List.filter_eq_nil_iff]
    intro a ha
    simp [hmem a ha]
  have h1 : rows.filter (fun r => r.1 ≠ id) = rows := by
    rw [List.filter_eq_self]
    intro a ha
    simp [hmem a ha]
  have h2 : rows.map (fun r => if r.1 = id then (r.1, payload) else r) = rows :=
    map_noop rows _ fun r hr => if_neg (hmem r hr)
  refine ⟨?_, ?_, rfl, ?_, rfl, ?_⟩
  · simp [gen_get_by_id, dbFetchOptional, h0]
  · simp [dbFetchOptional, h0]
  · refine Prod.ext ?_ ?_
    · show DbState.mk (rows.filter fun r => r.1 ≠ id) = DbState.mk rows
      rw [h1]
    · show (rows.filter fun r => r.1 = id).length = 0
      rw [h0]
      rfl
  · refine Prod.ext ?_ ?_
    · show DbState.mk (rows.map fun r => if r.1 = id then (r.1, payload) else r)
        = DbState.mk rows
      rw [h2]
    · show (rows.filter fun r => r.1 = id).length = 0
      rw [h0]
      rfl

/-- A one-row table whose only key is `2`. -/
def db9 : DbState Nat String := ⟨[(2, "x")]⟩

/-- Witness for C9: looking up, deleting or updating key `1` in `db9`
succeeds with no row found, zero rows affected and the table unchanged. -/
theorem c9_zero_match_is_success_witness :
    (∀ r ∈ db9.rows, r.1 ≠ 1)
    ∧ (gen_get_by_id String String (Except.ok (dbFetchOptional db9 1)) = Except.ok none
       ∧ dbFetchOptional db9 1 = none
       ∧ gen_delete_by_id String (Except.ok (dbDelete db9 1).2) = Except.ok ()
       ∧ dbDelete db9 1 = (db9, 0)
       ∧ gen_update_by_id String (Except.ok (dbUpdate db9 1 "y").2) = Except.ok ()
       ∧ dbUpdate db9 1 "y" = (db9, 0)) :=
  ⟨by decide, c9_zero_match_is_success Nat String String db9 1 "y" (by decide)⟩

end TypedSqlx
